import Mathlib

/-!
Verification of the blog-toolkit orchestrator (`src/blog-tookkit/toolkit.py`).

The Python module is a linear orchestration of provider API calls. We embed it
shallowly: each provider call site becomes a pure Lean function from the
orchestrator's fields, the mutable `self.resources` dictionary (the
ResourceLedger) and the provider's response (supplied as an explicit argument,
since the providers are external collaborators) to the request record the code
builds and the updated ledger. Provider errors (`ClientError`) are modelled as
explicit error values.
-/

/-- The fields set in `BlogInfrastructure.__init__`: the apex domain, the
derived www subdomain (`f"www.{domain_name}"`), and the bucket name (equal to
the domain name). -/
structure BlogInfrastructure where
  domain_name : String
  www_domain : String
  bucket_name : String
  deriving DecidableEq, Repr

/-- `BlogInfrastructure.__init__(domain_name)`. -/
def BlogInfrastructure.mkFromDomain (domain_name : String) : BlogInfrastructure :=
  { domain_name := domain_name
    www_domain := "www." ++ domain_name
    bucket_name := domain_name }

/-- The `self.resources` dictionary: mutable record of resource identifiers
(`bucket_name`, `certificate_arn`, `distribution_id`, `hosted_zone_id`, plus
the `cloudfront_domain` key added by `create_cloudfront_distribution`). -/
structure ResourceLedger where
  bucket_name : String
  certificate_arn : Option String
  distribution_id : Option String
  hosted_zone_id : Option String
  cloudfront_domain : Option String
  deriving DecidableEq, Repr

/-- The ledger as `__init__` leaves it: only the bucket name is set. -/
def ResourceLedger.initial (inst : BlogInfrastructure) : ResourceLedger :=
  { bucket_name := inst.bucket_name
    certificate_arn := none
    distribution_id := none
    hosted_zone_id := none
    cloudfront_domain := none }

/-- Python truthiness of an `Optional[str]` value: `None` and `""` are falsy.
The source tests ledger slots and returned identifiers with bare `if x:`. -/
def optTruthy : Option String → Bool
  | none => false
  | some s => s ≠ ""

/-- A provider `ClientError` carries an error code
(`e.response['Error']['Code']`); `none` models the call succeeding. -/
abbrev ProviderError := Option String

/-- `create_s3_bucket`: creates the bucket, enables versioning and the
public-access block, returns `True`; on `ClientError` it returns `True` when
the code is `'BucketAlreadyOwnedByYou'` and `False` otherwise. The three S3
calls either all succeed or raise the first error; `resp` is the error raised,
if any. -/
def create_s3_bucket (resp : ProviderError) : Bool :=
  match resp with
  | none => true
  | some code => code = "BucketAlreadyOwnedByYou"

/-- The request record passed to `acm.request_certificate` in
`request_ssl_certificate`: primary domain, subject-alternative-name list,
validation method and tags. ACM covers the primary `DomainName` together with
every entry of `SubjectAlternativeNames`. -/
structure CertificateRequest where
  domainName : String
  subjectAlternativeNames : List String
  validationMethod : String
  tags : List (String × String)
  deriving DecidableEq, Repr

/-- The names a certificate request covers: the primary domain plus the
subject alternative names. -/
def CertificateRequest.coveredNames (r : CertificateRequest) : List String :=
  r.domainName :: r.subjectAlternativeNames

/-- The single `acm.request_certificate` call issued by
`request_ssl_certificate`: `DomainName=self.domain_name`,
`SubjectAlternativeNames=[self.www_domain]`, `ValidationMethod='DNS'`. -/
def request_ssl_certificate_request (inst : BlogInfrastructure) : CertificateRequest :=
  { domainName := inst.domain_name
    subjectAlternativeNames := [inst.www_domain]
    validationMethod := "DNS"
    tags := [("Name", inst.domain_name ++ " Blog Certificate"), ("Purpose", "Blog")] }

/-- `request_ssl_certificate`: on success stores the returned ARN in the
ledger and returns it; on `ClientError` returns `None` and leaves the ledger
unchanged. `resp` is the provider's answer (`.ok arn` or `.error code`). -/
def request_ssl_certificate (ledger : ResourceLedger) (resp : Except String String) :
    Option String × ResourceLedger :=
  match resp with
  | .ok arn => (some arn, { ledger with certificate_arn := some arn })
  | .error _ => (none, ledger)

/-- One entry of `response['HostedZones']` as used by `get_hosted_zone_id`:
its `Name` and `Id` fields. -/
structure HostedZone where
  name : String
  id : String
  deriving DecidableEq, Repr

/-- Python `s.rstrip('.')`: remove every trailing `'.'` character. -/
def rstripDots (s : String) : String :=
  String.mk ((s.data.reverse.dropWhile (fun c => c = '.')).reverse)

/-- `get_hosted_zone_id`: linear scan over the listed zones, returning the
`Id` of the first zone with `zone['Name'].rstrip('.') == self.domain_name`,
and `None` when no zone matches (printing a diagnostic, not raising). On a
match the id is also stored in the ledger; this pure version returns the
lookup result, and `get_hosted_zone_id_ledger` below adds the ledger write. -/
def get_hosted_zone_id (domain_name : String) (zones : List HostedZone) : Option String :=
  (zones.find? (fun z => rstripDots z.name = domain_name)).map HostedZone.id

/-- `get_hosted_zone_id` including its write of `resources['hosted_zone_id']`
on the match branch. -/
def get_hosted_zone_id_ledger (domain_name : String) (zones : List HostedZone)
    (ledger : ResourceLedger) : Option String × ResourceLedger :=
  match get_hosted_zone_id domain_name zones with
  | some zid => (some zid, { ledger with hosted_zone_id := some zid })
  | none => (none, ledger)

/-- The `OriginAccessControlConfig` dictionary built in
`create_cloudfront_distribution`. -/
structure OriginAccessControlConfig where
  name : String
  description : String
  signingProtocol : String
  signingBehavior : String
  originAccessControlOriginType : String
  deriving DecidableEq, Repr

/-- The origin-access-control configuration passed to
`cloudfront.create_origin_access_control`. -/
def build_oac_config (inst : BlogInfrastructure) : OriginAccessControlConfig :=
  { name := inst.domain_name ++ "-oac"
    description := "OAC for " ++ inst.domain_name ++ " blog"
    signingProtocol := "sigv4"
    signingBehavior := "always"
    originAccessControlOriginType := "s3" }

/-- The `ViewerCertificate` block of the distribution configuration. -/
structure ViewerCertificate where
  acmCertificateArn : String
  sslSupportMethod : String
  minimumProtocolVersion : String
  deriving DecidableEq, Repr

/-- The single origin entry of the distribution configuration. -/
structure DistributionOrigin where
  id : String
  domainName : String
  originAccessIdentity : String
  originAccessControlId : String
  deriving DecidableEq, Repr

/-- The `DefaultCacheBehavior` block of the distribution configuration. -/
structure DefaultCacheBehavior where
  targetOriginId : String
  viewerProtocolPolicy : String
  minTTL : Nat
  forwardQueryString : Bool
  forwardCookies : String
  trustedSignersEnabled : Bool
  deriving DecidableEq, Repr

/-- The `distribution_config` dictionary built in
`create_cloudfront_distribution`. -/
structure DistributionConfig where
  callerReference : String
  comment : String
  defaultRootObject : String
  origins : List DistributionOrigin
  defaultCacheBehavior : DefaultCacheBehavior
  enabled : Bool
  aliases : List String
  viewerCertificate : ViewerCertificate
  priceClass : String
  deriving DecidableEq, Repr

/-- The distribution configuration literal from
`create_cloudfront_distribution`. `CallerReference` is
`f'{self.domain_name}-{int(time.time())}'`, so it depends on the wall clock,
passed here as `now`. `PriceClass_100` is the North-America+Europe tier. -/
def build_distribution_config (inst : BlogInfrastructure) (certificate_arn : String)
    (oac_id : String) (now : Nat) : DistributionConfig :=
  { callerReference := inst.domain_name ++ "-" ++ toString now
    comment := "Blog distribution for " ++ inst.domain_name
    defaultRootObject := "index.html"
    origins := [{ id := inst.bucket_name ++ "-origin"
                  domainName := inst.bucket_name ++ ".s3.amazonaws.com"
                  originAccessIdentity := ""
                  originAccessControlId := oac_id }]
    defaultCacheBehavior := { targetOriginId := inst.bucket_name ++ "-origin"
                              viewerProtocolPolicy := "redirect-to-https"
                              minTTL := 0
                              forwardQueryString := false
                              forwardCookies := "none"
                              trustedSignersEnabled := false }
    enabled := true
    aliases := [inst.domain_name, inst.www_domain]
    viewerCertificate := { acmCertificateArn := certificate_arn
                           sslSupportMethod := "sni-only"
                           minimumProtocolVersion := "TLSv1.2_2021" }
    priceClass := "PriceClass_100" }

/-- The single-statement bucket policy built by `_update_s3_bucket_policy`:
principal, action, resource ARN and the `AWS:SourceArn` condition value. -/
structure BucketPolicy where
  principalService : String
  action : String
  resource : String
  conditionSourceArn : String
  deriving DecidableEq, Repr

/-- `_update_s3_bucket_policy(distribution_id)`: the policy document it puts
on the bucket. The account id comes from a live
`boto3.client('sts').get_caller_identity()['Account']` call, passed here as
`account_id`. -/
def update_s3_bucket_policy (inst : BlogInfrastructure) (account_id : String)
    (distribution_id : String) : BucketPolicy :=
  { principalService := "cloudfront.amazonaws.com"
    action := "s3:GetObject"
    resource := "arn:aws:s3:::" ++ inst.bucket_name ++ "/*"
    conditionSourceArn :=
      "arn:aws:cloudfront::" ++ account_id ++ ":distribution/" ++ distribution_id }

/-- Everything `create_cloudfront_distribution(certificate_arn)` does on its
success path: the OAC request it sends, the distribution configuration it
submits, the bucket policy it installs, and the ledger as it leaves it. -/
structure CreateDistributionSteps where
  oacConfig : OriginAccessControlConfig
  distConfig : DistributionConfig
  policy : BucketPolicy
  ledger : ResourceLedger
  returned : String
  deriving DecidableEq, Repr

/-- `create_cloudfront_distribution(certificate_arn)` on its success path.
`certificate_arn` is the method's parameter (the ledger's
`certificate_arn` slot is never read). Provider responses are explicit
inputs: `oac_id` (from `create_origin_access_control`), `dist_id` and
`dist_domain` (from `create_distribution`), `account_id` (from STS inside
`_update_s3_bucket_policy`), `now` (from `time.time()`). The ledger writes of
`distribution_id` and `cloudfront_domain` happen before the policy call. -/
def create_cloudfront_distribution (inst : BlogInfrastructure) (ledger : ResourceLedger)
    (certificate_arn : String) (now : Nat) (oac_id dist_id dist_domain account_id : String) :
    CreateDistributionSteps :=
  let oac := build_oac_config inst
  let cfg := build_distribution_config inst certificate_arn oac_id now
  let ledger1 := { ledger with distribution_id := some dist_id,
                               cloudfront_domain := some dist_domain }
  let pol := update_s3_bucket_policy inst account_id dist_id
  { oacConfig := oac, distConfig := cfg, policy := pol, ledger := ledger1,
    returned := dist_id }

/-- The `AliasTarget` block of a Route53 record set. -/
structure AliasTarget where
  dnsName : String
  evaluateTargetHealth : Bool
  hostedZoneId : String
  deriving DecidableEq, Repr

/-- One `ResourceRecordSet` from a change batch. -/
structure ResourceRecordSet where
  name : String
  type : String
  aliasTarget : AliasTarget
  deriving DecidableEq, Repr

/-- One `change_resource_record_sets` call: the target hosted zone and the
single change of its batch. -/
structure ChangeRequest where
  hostedZoneId : String
  action : String
  recordSet : ResourceRecordSet
  deriving DecidableEq, Repr

/-- The fixed CloudFront hosted-zone id hard-coded in the source
(`'Z2FDTNDATAQYW2'  # CloudFront hosted zone ID`). -/
def cloudFrontHostedZoneId : String := "Z2FDTNDATAQYW2"

/-- The alias record upserted for `name` by `create_route53_records`. -/
def aliasUpsert (zone_id name cloudfront_domain : String) : ChangeRequest :=
  { hostedZoneId := zone_id
    action := "UPSERT"
    recordSet := { name := name
                       , type := "A"
                       , aliasTarget := { dnsName := cloudfront_domain
                                          evaluateTargetHealth := false
                                          hostedZoneId := cloudFrontHostedZoneId } } }

/-- `create_route53_records(cloudfront_domain)`: calls `get_hosted_zone_id`
first; a falsy result returns `False` with no change request issued.
Otherwise it issues the apex upsert then the www upsert and returns `True`.
The returned list is the sequence of `change_resource_record_sets` calls. -/
def create_route53_records (inst : BlogInfrastructure) (ledger : ResourceLedger)
    (zones : List HostedZone) (cloudfront_domain : String) :
    Bool × List ChangeRequest × ResourceLedger :=
  let (zid, ledger1) := get_hosted_zone_id_ledger inst.domain_name zones ledger
  match zid with
  | none => (false, [], ledger1)
  | some zone_id =>
    if zone_id = "" then (false, [], ledger1)
    else
      (true,
       [aliasUpsert zone_id inst.domain_name cloudfront_domain,
        aliasUpsert zone_id inst.www_domain cloudfront_domain],
       ledger1)

/-- The stages of `deploy_full_infrastructure` that issue provider calls, in
order; used to record which stages a run actually invoked. -/
inductive Stage where
  | bucketCreation
  | certificateRequest
  deriving DecidableEq, Repr

/-- The dictionary returned by `deploy_full_infrastructure`: the `success`
flag, the `step` string, and (on the success path) the certificate ARN. -/
structure DeployResult where
  success : Bool
  step : String
  certificate_arn : Option String
  deriving DecidableEq, Repr

/-- `deploy_full_infrastructure`: runs `create_s3_bucket`; on `False` returns
`{'success': False, 'step': 'S3 bucket creation'}` immediately. Otherwise
runs `request_ssl_certificate`; a falsy result returns
`{'success': False, 'step': 'SSL certificate request'}`. Otherwise it halts
for the manual validation step with `success: True`. The returned list records
the stages invoked, in order; `bucketResp` and `certResp` are the providers'
answers to the two stages. -/
def deploy_full_infrastructure (ledger : ResourceLedger)
    (bucketResp : ProviderError) (certResp : Except String String) :
    DeployResult × ResourceLedger × List Stage :=
  if create_s3_bucket bucketResp = false then
    ({ success := false, step := "S3 bucket creation", certificate_arn := none },
     ledger, [Stage.bucketCreation])
  else
    let (arnOpt, ledger1) := request_ssl_certificate ledger certResp
    if optTruthy arnOpt = false then
      ({ success := false, step := "SSL certificate request", certificate_arn := none },
       ledger1, [Stage.bucketCreation, Stage.certificateRequest])
    else
      ({ success := true, step := "Certificate validation required",
         certificate_arn := arnOpt },
       ledger1, [Stage.bucketCreation, Stage.certificateRequest])

/-- The dictionary returned by `get_status`: the domain, a copy of the ledger,
the bucket probe result, and the two optional status fields (absent keys are
`none`). -/
structure StatusSnapshot where
  domain : String
  resources : ResourceLedger
  s3_bucket : String
  certificate_status : Option String
  distribution_status : Option String
  deriving DecidableEq, Repr

/-- `get_status`: always builds a snapshot. The bucket probe
(`head_bucket`) maps success to `'exists'` and `ClientError` to `'missing'`.
Each identifier-gated sub-query (`describe_certificate`,
`get_distribution`) runs only when its ledger slot is truthy; its
`ClientError` degrades that one field to `'error'`. `headOk` is the probe
outcome; `certResp`/`distResp` are the sub-queries' answers (`.ok status` or
`.error ()`). -/
def get_status (inst : BlogInfrastructure) (ledger : ResourceLedger)
    (headOk : Bool) (certResp : Except Unit String) (distResp : Except Unit String) :
    StatusSnapshot :=
  { domain := inst.domain_name
    resources := ledger
    s3_bucket := if headOk then "exists" else "missing"
    certificate_status :=
      if optTruthy ledger.certificate_arn then
        match certResp with
        | .ok s => some s
        | .error _ => some "error"
      else none
    distribution_status :=
      if optTruthy ledger.distribution_id then
        match distResp with
        | .ok s => some s
        | .error _ => some "error"
      else none }

/-- A definition following the words of the spec for `findHostedZone`
(refinement comparison only): match after stripping THE trailing separator,
i.e. at most one trailing dot, rather than Python's `rstrip('.')` which
removes every trailing dot. -/
def stripOneTrailingDot (s : String) : String :=
  match s.data.reverse with
  | '.' :: rest => String.mk rest.reverse
  | _ => s

/-- The spec's description of `findHostedZone`: first zone whose name, after
stripping the trailing separator, equals the apex domain. -/
def find_hosted_zone_spec (domain_name : String) (zones : List HostedZone) : Option String :=
  (zones.find? (fun z => stripOneTrailingDot z.name = domain_name)).map HostedZone.id

/-- C2: for every apex domain `D`, `request_ssl_certificate` issues exactly
one certificate request (the single `acm.request_certificate` call embedded
as `request_ssl_certificate_request`), with DNS validation, whose covered
names — the primary `DomainName` together with the `SubjectAlternativeNames`
parameter — are exactly `[D, "www." ++ D]`; at `D = "example.com"` these are
`["example.com", "www.example.com"]`. -/
theorem C2_certificate_request_covers_apex_and_www (D : String) :
    (request_ssl_certificate_request (BlogInfrastructure.mkFromDomain D)).coveredNames
      = [D, "www." ++ D] ∧
    (request_ssl_certificate_request (BlogInfrastructure.mkFromDomain D)).validationMethod
      = "DNS" ∧
    (request_ssl_certificate_request (BlogInfrastructure.mkFromDomain "example.com")).coveredNames
      = ["example.com", "www.example.com"] :=
  ⟨rfl, rfl, by decide⟩

/-- C3: the distribution configuration built by
`create_cloudfront_distribution` for apex domain `D` has aliases exactly
`[D, "www." ++ D]`, default root object `"index.html"`, viewer protocol
policy `"redirect-to-https"`, a viewer certificate equal to the given ARN
with SNI-only delivery and minimum protocol `"TLSv1.2_2021"`, and price class
`"PriceClass_100"` (the North-America+Europe tier), for every certificate
ARN, OAC id and clock reading. -/
theorem C3_distribution_config_fields (D certificate_arn oac_id : String) (now : Nat) :
    (build_distribution_config (BlogInfrastructure.mkFromDomain D) certificate_arn oac_id now).aliases
      = [D, "www." ++ D] ∧
    (build_distribution_config (BlogInfrastructure.mkFromDomain D) certificate_arn oac_id now).defaultRootObject
      = "index.html" ∧
    (build_distribution_config (BlogInfrastructure.mkFromDomain D) certificate_arn oac_id now).defaultCacheBehavior.viewerProtocolPolicy
      = "redirect-to-https" ∧
    (build_distribution_config (BlogInfrastructure.mkFromDomain D) certificate_arn oac_id now).viewerCertificate
      = { acmCertificateArn := certificate_arn, sslSupportMethod := "sni-only",
          minimumProtocolVersion := "TLSv1.2_2021" } ∧
    (build_distribution_config (BlogInfrastructure.mkFromDomain D) certificate_arn oac_id now).priceClass
      = "PriceClass_100" :=
  ⟨rfl, rfl, rfl, rfl, rfl⟩

/-- C6: `create_s3_bucket` succeeds both when the bucket is newly created
(no provider error) and when the provider reports
`'BucketAlreadyOwnedByYou'`; any other provider error code yields failure. -/
theorem C6_create_s3_bucket_outcomes :
    create_s3_bucket none = true ∧
    create_s3_bucket (some "BucketAlreadyOwnedByYou") = true ∧
    ∀ code, code ≠ "BucketAlreadyOwnedByYou" → create_s3_bucket (some code) = false := by
  refine ⟨rfl, by decide, ?_⟩
  intro code h
  simp [create_s3_bucket, h]

/-- Witness for C6 at the concrete error code `"AccessDenied"`. -/
theorem C6_create_s3_bucket_outcomes_witness :
    create_s3_bucket (some "AccessDenied") = false :=
  C6_create_s3_bucket_outcomes.2.2 "AccessDenied" (by decide)

/-- C5: when bucket creation fails with any provider error code other than
`'BucketAlreadyOwnedByYou'`, `deploy_full_infrastructure` returns
`success = false` with step `"S3 bucket creation"`, leaves the ledger
untouched, and the certificate-request stage is never invoked; in general the
pipeline halts at the first hard stage failure and names the failing step,
as the third conjunct shows for the certificate stage. -/
theorem C5_pipeline_halts_at_first_failure (ledger : ResourceLedger) (code : String)
    (certResp : Except String String) (h : code ≠ "BucketAlreadyOwnedByYou") :
    deploy_full_infrastructure ledger (some code) certResp =
      ({ success := false, step := "S3 bucket creation", certificate_arn := none },
       ledger, [Stage.bucketCreation]) ∧
    Stage.certificateRequest ∉ (deploy_full_infrastructure ledger (some code) certResp).2.2 ∧
    (∀ bucketResp e, create_s3_bucket bucketResp = true →
      (deploy_full_infrastructure ledger bucketResp (Except.error e)).1 =
        { success := false, step := "SSL certificate request", certificate_arn := none }) := by
  have hb : create_s3_bucket (some code) = false := by
    simp [create_s3_bucket, h]
  refine ⟨?_, ?_, ?_⟩
  · simp [deploy_full_infrastructure, hb]
  · simp [deploy_full_infrastructure, hb]
  · intro bucketResp e hok
    simp [deploy_full_infrastructure, hok, request_ssl_certificate, optTruthy]

/-- Witness for C5 at the concrete error code `"AccessDenied"`. -/
theorem C5_pipeline_halts_at_first_failure_witness :
    deploy_full_infrastructure
        (ResourceLedger.initial (BlogInfrastructure.mkFromDomain "example.com"))
        (some "AccessDenied") (Except.ok "arn:aws:acm:us-east-1:1:certificate/x") =
      ({ success := false, step := "S3 bucket creation", certificate_arn := none },
       ResourceLedger.initial (BlogInfrastructure.mkFromDomain "example.com"),
       [Stage.bucketCreation]) :=
  (C5_pipeline_halts_at_first_failure _ "AccessDenied" _ (by decide)).1

/-- C7: `get_status` is a total function, so a snapshot is always produced.
With an empty ledger and a failing bucket probe the snapshot reports the
bucket `"missing"` and carries no certificate-status or distribution-status
field (first conjunct). When the certificate (resp. distribution) slot holds
an identifier and that slot's live sub-query raises, only that one field
becomes `"error"`: every other field equals what it is when the sub-query
answers normally (second and third conjuncts). -/
theorem C7_get_status_degrades_per_field :
    (∀ (inst : BlogInfrastructure) (ledger : ResourceLedger) certResp distResp,
      ledger.certificate_arn = none → ledger.distribution_id = none →
      get_status inst ledger false certResp distResp =
        { domain := inst.domain_name, resources := ledger, s3_bucket := "missing",
          certificate_status := none, distribution_status := none }) ∧
    (∀ (inst : BlogInfrastructure) (ledger : ResourceLedger) arn headOk distResp s,
      ledger.certificate_arn = some arn → arn ≠ "" →
      (get_status inst ledger headOk (Except.error ()) distResp).certificate_status
        = some "error" ∧
      ((get_status inst ledger headOk (Except.error ()) distResp).domain,
       (get_status inst ledger headOk (Except.error ()) distResp).resources,
       (get_status inst ledger headOk (Except.error ()) distResp).s3_bucket,
       (get_status inst ledger headOk (Except.error ()) distResp).distribution_status)
      = ((get_status inst ledger headOk (Except.ok s) distResp).domain,
         (get_status inst ledger headOk (Except.ok s) distResp).resources,
         (get_status inst ledger headOk (Except.ok s) distResp).s3_bucket,
         (get_status inst ledger headOk (Except.ok s) distResp).distribution_status)) ∧
    (∀ (inst : BlogInfrastructure) (ledger : ResourceLedger) did headOk certResp s,
      ledger.distribution_id = some did → did ≠ "" →
      (get_status inst ledger headOk certResp (Except.error ())).distribution_status
        = some "error" ∧
      ((get_status inst ledger headOk certResp (Except.error ())).domain,
       (get_status inst ledger headOk certResp (Except.error ())).resources,
       (get_status inst ledger headOk certResp (Except.error ())).s3_bucket,
       (get_status inst ledger headOk certResp (Except.error ())).certificate_status)
      = ((get_status inst ledger headOk certResp (Except.ok s)).domain,
         (get_status inst ledger headOk certResp (Except.ok s)).resources,
         (get_status inst ledger headOk certResp (Except.ok s)).s3_bucket,
         (get_status inst ledger headOk certResp (Except.ok s)).certificate_status)) := by
  refine ⟨?_, ?_, ?_⟩
  · intro inst ledger certResp distResp hc hd
    simp [get_status, hc, hd, optTruthy]
  · intro inst ledger arn headOk distResp s hc harn
    constructor
    · simp [get_status, hc, optTruthy, harn]
    · simp [get_status]
  · intro inst ledger did headOk certResp s hd hdid
    constructor
    · simp [get_status, hd, optTruthy, hdid]
    · simp [get_status]

/-- Witness for C7: an empty ledger with a failing probe yields the
bucket-missing snapshot, and a set certificate slot with a raising sub-query
yields `certificate_status = some "error"`. -/
theorem C7_get_status_degrades_per_field_witness :
    get_status (BlogInfrastructure.mkFromDomain "example.com")
        (ResourceLedger.initial (BlogInfrastructure.mkFromDomain "example.com"))
        false (Except.ok "ISSUED") (Except.ok "Deployed") =
      { domain := "example.com",
        resources := ResourceLedger.initial (BlogInfrastructure.mkFromDomain "example.com"),
        s3_bucket := "missing", certificate_status := none,
        distribution_status := none } ∧
    (get_status (BlogInfrastructure.mkFromDomain "example.com")
        { ResourceLedger.initial (BlogInfrastructure.mkFromDomain "example.com") with
            certificate_arn := some "arn:aws:acm:us-east-1:1:certificate/x" }
        true (Except.error ()) (Except.ok "Deployed")).certificate_status = some "error" :=
  ⟨C7_get_status_degrades_per_field.1 _ _ _ _ rfl rfl,
   (C7_get_status_degrades_per_field.2.1 _ _ "arn:aws:acm:us-east-1:1:certificate/x"
      true (Except.ok "Deployed") "ISSUED" rfl (by decide)).1⟩

/-- C9: on the success path (a hosted zone was found, with a truthy id),
`create_route53_records` issues exactly two upserts: the first named for the
apex domain, the second for the www subdomain, both of record type `"A"`,
both with alias target equal to the given distribution edge domain, and both
with the alias target's hosted-zone id equal to the fixed published constant
`"Z2FDTNDATAQYW2"` — never a dynamically discovered value, as the statement
holds for every zone list and ledger. -/
theorem C9_two_alias_upserts (inst : BlogInfrastructure) (ledger : ResourceLedger)
    (zones : List HostedZone) (cloudfront_domain zone_id : String)
    (h : get_hosted_zone_id inst.domain_name zones = some zone_id) (hz : zone_id ≠ "") :
    (create_route53_records inst ledger zones cloudfront_domain).2.1.length = 2 ∧
    (create_route53_records inst ledger zones cloudfront_domain).2.1.map
        (fun c => c.recordSet.name) = [inst.domain_name, inst.www_domain] ∧
    (∀ c ∈ (create_route53_records inst ledger zones cloudfront_domain).2.1,
      c.action = "UPSERT" ∧ c.recordSet.type = "A" ∧
      c.recordSet.aliasTarget.dnsName = cloudfront_domain ∧
      c.recordSet.aliasTarget.hostedZoneId = "Z2FDTNDATAQYW2") := by
  refine ⟨?_, ?_, ?_⟩
  · simp [create_route53_records, get_hosted_zone_id_ledger, h, hz]
  · simp [create_route53_records, get_hosted_zone_id_ledger, h, hz, aliasUpsert]
  · intro c hc
    simp [create_route53_records, get_hosted_zone_id_ledger, h, hz] at hc
    rcases hc with hc | hc <;>
      simp [hc, aliasUpsert, cloudFrontHostedZoneId]

/-- Witness for C9 with a concrete matching zone list. -/
theorem C9_two_alias_upserts_witness :
    (create_route53_records (BlogInfrastructure.mkFromDomain "example.com")
        (ResourceLedger.initial (BlogInfrastructure.mkFromDomain "example.com"))
        [{ name := "example.com.", id := "Z0001" }] "d111.cloudfront.net").2.1.map
      (fun c => c.recordSet.name) = ["example.com", "www.example.com"] :=
  (C9_two_alias_upserts (BlogInfrastructure.mkFromDomain "example.com")
    (ResourceLedger.initial (BlogInfrastructure.mkFromDomain "example.com"))
    [{ name := "example.com.", id := "Z0001" }] "d111.cloudfront.net" "Z0001"
    (by decide) (by decide)).2.1

/-- C10: when `get_hosted_zone_id` finds no matching hosted zone,
`create_route53_records` returns `False` and issues no
`change_resource_record_sets` call at all — the zone lookup is its first
step on every invocation, before any upsert. -/
theorem C10_no_zone_means_no_upserts (inst : BlogInfrastructure) (ledger : ResourceLedger)
    (zones : List HostedZone) (cloudfront_domain : String)
    (h : get_hosted_zone_id inst.domain_name zones = none) :
    (create_route53_records inst ledger zones cloudfront_domain).1 = false ∧
    (create_route53_records inst ledger zones cloudfront_domain).2.1 = [] := by
  constructor <;> simp [create_route53_records, get_hosted_zone_id_ledger, h]

/-- Witness for C10 with a concrete non-matching zone list. -/
theorem C10_no_zone_means_no_upserts_witness :
    (create_route53_records (BlogInfrastructure.mkFromDomain "example.com")
        (ResourceLedger.initial (BlogInfrastructure.mkFromDomain "example.com"))
        [{ name := "other.org.", id := "Z0002" }] "d111.cloudfront.net").2.1 = [] :=
  (C10_no_zone_means_no_upserts (BlogInfrastructure.mkFromDomain "example.com")
    (ResourceLedger.initial (BlogInfrastructure.mkFromDomain "example.com"))
    [{ name := "other.org.", id := "Z0002" }] "d111.cloudfront.net" (by decide)).2

/-- C1 counterexample: the certificate id used by
`create_cloudfront_distribution` and the distribution domain used by
`create_route53_records` are the methods' parameters, used even when the
ledger holds a different value — so they are supplied independently of the
ledger, refuting the claim that every such identifier is read from the
ledger at call time. -/
theorem C1_counterexample :
    (create_cloudfront_distribution (BlogInfrastructure.mkFromDomain "example.com")
        { ResourceLedger.initial (BlogInfrastructure.mkFromDomain "example.com") with
            certificate_arn := some "arn:ledger-cert",
            cloudfront_domain := some "ledger-domain.cloudfront.net" }
        "arn:caller-cert" 0 "OAC1" "E123" "d1.cloudfront.net"
        "111122223333").distConfig.viewerCertificate.acmCertificateArn
      = "arn:caller-cert" ∧
    ("arn:caller-cert" : String) ≠ "arn:ledger-cert" ∧
    (create_route53_records (BlogInfrastructure.mkFromDomain "example.com")
        { ResourceLedger.initial (BlogInfrastructure.mkFromDomain "example.com") with
            certificate_arn := some "arn:ledger-cert",
            cloudfront_domain := some "ledger-domain.cloudfront.net" }
        [{ name := "example.com.", id := "Z0001" }] "caller-domain.cloudfront.net").2.1.map
      (fun c => c.recordSet.aliasTarget.dnsName)
      = ["caller-domain.cloudfront.net", "caller-domain.cloudfront.net"] ∧
    ("caller-domain.cloudfront.net" : String) ≠ "ledger-domain.cloudfront.net" := by
  refine ⟨rfl, by decide, by decide, by decide⟩

/-- C1 amended: the certificate identifier and the distribution domain name
are explicit caller arguments to their stages and are used as given,
independent of the ledger; the one identifier that does flow through the
ledger is the distribution id in the bucket policy — it equals the id the
ledger holds at the time of the policy call, written there immediately
before. -/
theorem C1_amended_identifier_flow (inst : BlogInfrastructure) (ledger : ResourceLedger)
    (certificate_arn : String) (now : Nat) (oac_id dist_id dist_domain account_id : String)
    (zones : List HostedZone) (cloudfront_domain : String) :
    (create_cloudfront_distribution inst ledger certificate_arn now oac_id dist_id
        dist_domain account_id).distConfig.viewerCertificate.acmCertificateArn
      = certificate_arn ∧
    (create_cloudfront_distribution inst ledger certificate_arn now oac_id dist_id
        dist_domain account_id).ledger.distribution_id = some dist_id ∧
    (create_cloudfront_distribution inst ledger certificate_arn now oac_id dist_id
        dist_domain account_id).policy.conditionSourceArn
      = "arn:aws:cloudfront::" ++ account_id ++ ":distribution/" ++ dist_id ∧
    (∀ c ∈ (create_route53_records inst ledger zones cloudfront_domain).2.1,
      c.recordSet.aliasTarget.dnsName = cloudfront_domain) := by
  refine ⟨rfl, rfl, rfl, ?_⟩
  intro c hc
  by_cases hzid : get_hosted_zone_id inst.domain_name zones = none
  · simp [create_route53_records, get_hosted_zone_id_ledger, hzid] at hc
  · obtain ⟨zid, hzid'⟩ := Option.ne_none_iff_exists'.mp hzid
    by_cases hz : zid = ""
    · simp [create_route53_records, get_hosted_zone_id_ledger, hzid', hz] at hc
    · simp [create_route53_records, get_hosted_zone_id_ledger, hzid', hz] at hc
      rcases hc with hc | hc <;> simp [hc, aliasUpsert]

/-- Witness for C1 amended at concrete inputs, including a concrete member
of the issued change list. -/
theorem C1_amended_identifier_flow_witness :
    (create_cloudfront_distribution (BlogInfrastructure.mkFromDomain "example.com")
        (ResourceLedger.initial (BlogInfrastructure.mkFromDomain "example.com"))
        "arn:c" 0 "OAC1" "E123" "d1.cloudfront.net"
        "111122223333").distConfig.viewerCertificate.acmCertificateArn = "arn:c" ∧
    (aliasUpsert "Z0001" "example.com" "edge.cloudfront.net").recordSet.aliasTarget.dnsName
      = "edge.cloudfront.net" := by
  have h := C1_amended_identifier_flow (BlogInfrastructure.mkFromDomain "example.com")
    (ResourceLedger.initial (BlogInfrastructure.mkFromDomain "example.com"))
    "arn:c" 0 "OAC1" "E123" "d1.cloudfront.net" "111122223333"
    [{ name := "example.com.", id := "Z0001" }] "edge.cloudfront.net"
  exact ⟨h.1, h.2.2.2 _ (by decide)⟩

/-- C4 counterexample: the distribution configuration is not determined by
the apex domain and certificate id alone — its `CallerReference` embeds
`int(time.time())`, so two runs at clock readings 0 and 1 build different
configurations, refuting the two-run determinism claim as stated. -/
theorem C4_counterexample :
    build_distribution_config (BlogInfrastructure.mkFromDomain "example.com")
        "arn:c" "OAC1" 0 ≠
    build_distribution_config (BlogInfrastructure.mkFromDomain "example.com")
        "arn:c" "OAC1" 1 := by
  decide

/-- C4 amended: for a fixed apex domain and certificate id, any two runs of
`create_cloudfront_distribution` build identical origin-access-control
configurations (the OAC config does not depend on the clock at all), and
distribution configurations identical in every field except
`CallerReference`, which embeds the run's wall-clock reading. -/
theorem C4_amended_determinism_modulo_caller_reference (inst : BlogInfrastructure)
    (certificate_arn oac_id : String) (t1 t2 : Nat) :
    build_oac_config inst = build_oac_config inst ∧
    { build_distribution_config inst certificate_arn oac_id t1 with callerReference := "" }
      = { build_distribution_config inst certificate_arn oac_id t2 with
            callerReference := "" } ∧
    (build_distribution_config inst certificate_arn oac_id t1).callerReference
      = inst.domain_name ++ "-" ++ toString t1 :=
  ⟨rfl, rfl, rfl⟩

/-- C8 counterexample: `get_hosted_zone_id` compares with Python's
`rstrip('.')`, which removes EVERY trailing dot, not just the single
trailing separator: with the zone list `[{Name: "example.com..", Id: "ZX"}]`
and apex domain `"example.com"` the code returns `some "ZX"`, yet
`"example.com.."` with one trailing separator stripped is `"example.com."`,
which is not the apex domain — so under the claim's matching rule no zone
matches and the result should be not-found. -/
theorem C8_counterexample :
    get_hosted_zone_id "example.com" [{ name := "example.com..", id := "ZX" }]
      = some "ZX" ∧
    stripOneTrailingDot "example.com.." ≠ "example.com" ∧
    find_hosted_zone_spec "example.com" [{ name := "example.com..", id := "ZX" }]
      = none := by
  refine ⟨by decide, by decide, by decide⟩

/-- A successful `List.find?` splits the list at the first element
satisfying the predicate: everything in front of the hit fails it. -/
theorem find?_splits_at_first_match {α : Type} (p : α → Bool) (l : List α) (a : α)
    (h : l.find? p = some a) :
    ∃ front back, l = front ++ a :: back ∧ p a = true ∧
      ∀ x ∈ front, p x = false := by
  induction l with
  | nil => simp at h
  | cons x xs ih =>
    by_cases hx : p x = true
    · rw [List.find?_cons_of_pos _ hx] at h
      obtain rfl : x = a := by injection h
      exact ⟨[], xs, rfl, hx, by simp⟩
    · rw [List.find?_cons_of_neg _ (by simpa using hx)] at h
      obtain ⟨front, back, heq, hpa, hfront⟩ := ih h
      refine ⟨x :: front, back, by rw [heq]; rfl, hpa, ?_⟩
      intro y hy
      rcases List.mem_cons.mp hy with h1 | h1
      · subst h1; simpa using hx
      · exact hfront y h1

/-- C8 amended: for every fixed list of hosted-zone records,
`get_hosted_zone_id` returns the id of the first zone whose name, after
stripping ALL trailing separators (Python `rstrip('.')`), equals the apex
domain — no earlier zone matches — and returns `none` (a normal negative
result of this total function, not an exception) exactly when no zone
matches. -/
theorem C8_first_zone_match_all_dots_stripped (domain_name : String)
    (zones : List HostedZone) :
    (∀ i, get_hosted_zone_id domain_name zones = some i →
      ∃ front z back, zones = front ++ z :: back ∧ z.id = i ∧
        rstripDots z.name = domain_name ∧
        ∀ z' ∈ front, rstripDots z'.name ≠ domain_name) ∧
    (get_hosted_zone_id domain_name zones = none ↔
      ∀ z ∈ zones, rstripDots z.name ≠ domain_name) := by
  constructor
  · intro i h
    rw [get_hosted_zone_id, Option.map_eq_some'] at h
    obtain ⟨z, hfind, hid⟩ := h
    obtain ⟨front, back, heq, hpz, hfront⟩ := find?_splits_at_first_match _ _ _ hfind
    refine ⟨front, z, back, heq, hid, by simpa using hpz, ?_⟩
    intro z' hz'
    simpa using hfront z' hz'
  · simp [get_hosted_zone_id, List.find?_eq_none]

/-- Witness for C8 amended at a concrete non-matching zone list. -/
theorem C8_first_zone_match_all_dots_stripped_witness :
    get_hosted_zone_id "example.com" [{ name := "other.org.", id := "ZA" }] = none :=
  (C8_first_zone_match_all_dots_stripped "example.com"
    [{ name := "other.org.", id := "ZA" }]).2.mpr (by decide)
